import Mathlib

/-!
Verification development for the nanoclaw support-triage orchestrator.

Shallow embedding of the message-processing core:
* `src/support/ledger.ts` — the idempotency Ledger (`hasProcessed`,
  `markProcessed`, `normalizeMessageId`) over an explicit list of rows
  modelling the SQLite table `processed_messages` with its
  `UNIQUE(tenant_id, gmail_message_id)` upsert.
* `src/support/switchboard.ts` — `performEscalation` and `runSwitchboard`
  (the version returning a `SwitchboardOutcome`), with external calls
  (Gmail, Shopify, reply generator, Telegram) supplied by environment
  records; a call that may reject is an `Except String` value, a call that
  only reports success is a `Bool`.
* `src/support/support-heartbeat.ts` — `runOneHeartbeatTick` (the
  Ledger-based version), threading the Ledger state through the per-thread
  loop.

Side effects are recorded as an explicit event trace (`Ev`). Exceptions are
modelled by threading an `Option String` (the thrown message) through the
control flow, so that "never raises" and "propagates" are statable.
-/

/-- Whitespace test used by the JS `String.prototype.trim` model
(space, tab, newline, carriage return, form feed, vertical tab). -/
def isJsWs (c : Char) : Bool :=
  c = ' ' || c = '\t' || c = '\n' || c = '\r' || c = '\x0c' || c = '\x0b'

/-- Characters of a string with leading and trailing JS whitespace removed. -/
def trimChars (cs : List Char) : List Char :=
  ((cs.dropWhile isJsWs).reverse.dropWhile isJsWs).reverse

deriving instance DecidableEq for Except

/-- Model of JS `s.trim()`. -/
def jsTrim (s : String) : String :=
  ⟨trimChars s.data⟩

/-- Model of JS `s.toLowerCase()` (ASCII case folding). -/
def jsLower (s : String) : String :=
  ⟨s.data.map Char.toLower⟩

/-- Model of JS `a || b` for a nullable string `a`: falls through to `b`
when `a` is `null` or the empty string. -/
def jsOr (a : Option String) (b : String) : String :=
  match a with
  | some s => if s = "" then b else s
  | none => b

/-- Model of JS `a || b` for strings: falls through to `b` when `a` is empty. -/
def jsOrS (a b : String) : String :=
  if a = "" then b else a

/-- Strip one pair of surrounding angle brackets from a character list:
the list model of `t.startsWith('<') && t.endsWith('>') ? t.slice(1, -1) : t`. -/
def stripAngles (cs : List Char) : List Char :=
  match cs with
  | '<' :: rest => if rest.getLast? = some '>' then rest.dropLast else cs
  | _ => cs

/-- `normalizeMessageId` from `ledger.ts`: trim, then strip one pair of
surrounding angle brackets. -/
def normalizeMessageId (messageId : String) : String :=
  ⟨stripAngles (trimChars messageId.data)⟩

/-- One row of the `processed_messages` table. The autoincrement `id` and
the `processed_at` timestamp are not modelled (no clock in the embedding);
the claims under verification do not mention them. -/
structure Row where
  tenant_id : String
  gmail_message_id : String
  thread_id : String
  action : String
  escalation_reason : Option String
  deriving DecidableEq, Repr

/-- The Ledger store: the rows of `processed_messages`, in insertion order. -/
abbrev Ledger := List Row

/-- Does a row match the key `(tenant, normalized messageId)`? -/
def rowKeyMatch (tenantId mid : String) (r : Row) : Bool :=
  r.tenant_id == tenantId && r.gmail_message_id == mid

/-- `hasProcessed` from `ledger.ts` against a healthy store:
empty-guard, then a key lookup on `(tenant_id, normalized messageId)`. -/
def hasProcessed (tenantId messageId : String) (l : Ledger) : Bool :=
  if messageId = "" ∨ tenantId = "" then false
  else l.any (rowKeyMatch tenantId (normalizeMessageId messageId))

/-- `hasProcessed` with the storage access made explicit: the store is an
`Except` value (`.error` = the SQLite driver throws when opened/queried).
The empty-string guard runs before `getDb()`, so it answers `false` even on
a broken store; otherwise the query runs and a storage error propagates
(there is no try/catch in the source function). -/
def hasProcessedE (db : Except String Ledger) (tenantId messageId : String) :
    Except String Bool :=
  if messageId = "" ∨ tenantId = "" then .ok false
  else
    match db with
    | .error e => .error e
    | .ok l => .ok (l.any (rowKeyMatch tenantId (normalizeMessageId messageId)))

/-- `markProcessed` from `ledger.ts`: empty-guard, then the
`INSERT ... ON CONFLICT(tenant_id, gmail_message_id) DO UPDATE` upsert.
On conflict the matching row is updated in place (`thread_id`, `action`,
`escalation_reason` replaced); otherwise a fresh row is appended. The
`UNIQUE` constraint means at most one row can match. -/
def markProcessed (tenantId messageId threadId action : String)
    (escalationReason : Option String) (l : Ledger) : Ledger :=
  if messageId = "" ∨ tenantId = "" ∨ threadId = "" then l
  else
    let mid := normalizeMessageId messageId
    if l.any (rowKeyMatch tenantId mid) then
      l.map fun r =>
        if rowKeyMatch tenantId mid r then
          { r with thread_id := threadId, action := action,
                   escalation_reason := escalationReason }
        else r
    else
      l ++ [⟨tenantId, mid, threadId, action, escalationReason⟩]

/-- Number of rows keyed by `(tenant, normalized messageId)`. -/
def countKey (l : Ledger) (tenantId messageId : String) : Nat :=
  (l.filter (rowKeyMatch tenantId (normalizeMessageId messageId))).length

/-- One message of a support thread (`ThreadMessage` in `gmail-support.ts`).
`fromHeader` is the `from` field of the source (renamed: `from` is a Lean
keyword). -/
structure ThreadMessage where
  fromHeader : String
  subject : String
  date : String
  body : String
  messageId : String
  deriving DecidableEq, Repr

/-- `SupportThread` from `gmail-support.ts`. -/
structure SupportThread where
  threadId : String
  subject : String
  messages : List ThreadMessage
  deriving DecidableEq, Repr

/-- The closed action enum of `TriageResult` (`triage.ts`). -/
inductive TriageAction where
  | auto_reply
  | shopify_lookup
  | escalate
  | ignore
  deriving DecidableEq, Repr

/-- `TriageResult` from `triage.ts` (confidence carried as `Nat`; its value
is never inspected by the switchboard). -/
structure TriageResult where
  category : String
  action : TriageAction
  target_files : List String
  extracted_order_number : Option String
  extracted_email : Option String
  requires_shopify_lookup : Bool
  confidence : Nat
  sentiment : String
  reason : String
  flags : List String
  escalation_reason : Option String
  deriving DecidableEq, Repr

/-- `EscalationData` from `gmail-support.ts`. -/
structure EscalationData where
  isConfigError : Bool
  reason : String
  suggestedReply : Option String
  deriving DecidableEq, Repr

/-- `EscalationOptions` from `switchboard.ts`: the tagged variant
parameterizing the escalation terminal. -/
inductive EscalationOptions where
  | system (error_details remediation_steps : String) (short_reason : Option String)
  | customer (escalationData : EscalationData) (short_reason : String)
  deriving DecidableEq, Repr

/-- Side-effect events recorded by the embedding, in program order. -/
inductive Ev where
  /-- `performEscalation` invoked (the escalation terminal). -/
  | escTerm (opts : EscalationOptions)
  /-- `getOrCreateEscalationLabel` returned (step 1 of the terminal). -/
  | labelFetch (labelId : Option String)
  /-- `createSmartDraft` returned (step 2). -/
  | draftCreate (data : EscalationData) (ok : Bool)
  /-- `markThreadHandled` succeeded (step 3). -/
  | markHandled
  /-- `markThreadHandledLegacyFallback` succeeded (step 3 without label). -/
  | legacyMark
  /-- `sendTelegramEscalationAlert` returned (step 4). -/
  | alert (short_reason : String) (ok : Bool)
  /-- `sendTelegramEscalationFallback` returned. -/
  | fallbackAlert (detail : String) (ok : Bool)
  /-- `sendReply` returned. -/
  | send (body : String) (ok : Bool)
  /-- `archiveThread` invoked. -/
  | archive
  /-- `lookupOrder` invoked. -/
  | orderLookup
  /-- `runReplyGenerator` invoked. -/
  | replyGen
  /-- `appendMemoryLog` invoked. -/
  | memLog (entry : String)
  deriving DecidableEq, Repr

/-- Results of the external calls awaited inside `performEscalation`'s
`try` block. Each awaited promise may reject (`Except.error` carries the
thrown message). `sendTelegramEscalationFallback` catches internally and
only reports success, so it is a `Bool`. -/
structure EscEnv where
  labelResult : Except String (Option String)
  draftResult : Except String Bool
  markResult : Except String Unit
  legacyMarkResult : Except String Unit
  alertResult : Except String Bool
  fallbackResult : Bool
  deriving DecidableEq, Repr

/-- JS truthiness of a nullable string (`if (labelId)`). -/
def truthyOpt (s : Option String) : Bool :=
  match s with
  | some v => v ≠ ""
  | none => false

/-- Step 4 of the escalation terminal: the `sendTelegramEscalationAlert`
call (which may reject) appended to the events so far. -/
def escAlertStep (env : EscEnv) (short_reason : String) (evs : List Ev) :
    List Ev × Option String :=
  match env.alertResult with
  | .error e => (evs, some e)
  | .ok ok => (evs ++ [Ev.alert short_reason ok], none)

/-- The `try` block of `performEscalation` (`switchboard.ts` lines 230-285):
label step, draft step with fallback alert on `draftCreated === false`,
mark-handled step (label or legacy variant), then the Telegram alert.
Returns the events so far and `some e` when a step threw `e` (the
exception leaving the `try` block). -/
def performEscalationBody (env : EscEnv) (thread : SupportThread)
    (opts : EscalationOptions) : List Ev × Option String :=
  let last := thread.messages.getLast?
  let toAddr := match last with | some m => m.fromHeader | none => ""
  let messageId := match last with | some m => m.messageId | none => ""
  let short_reason :=
    match opts with
    | .system ed _ sr => sr.getD ed
    | .customer _ sr => sr
  match env.labelResult with
  | .error e => ([], some e)
  | .ok labelId =>
    let evs0 := [Ev.labelFetch labelId]
    if last.isSome && messageId ≠ "" && toAddr ≠ "" then
      let escalationData :=
        match opts with
        | .system ed _ _ => ⟨true, ed, none⟩
        | .customer d _ => d
      match env.draftResult with
      | .error e => (evs0, some e)
      | .ok draftCreated =>
        if !draftCreated then
          escAlertStep env short_reason (evs0 ++ [Ev.draftCreate escalationData false,
            Ev.fallbackAlert "Draft creation failed" env.fallbackResult])
        else
          let evs1 := evs0 ++ [Ev.draftCreate escalationData true]
          if truthyOpt labelId then
            match env.markResult with
            | .error e => (evs1, some e)
            | .ok _ => escAlertStep env short_reason (evs1 ++ [Ev.markHandled])
          else
            match env.legacyMarkResult with
            | .error e => (evs1, some e)
            | .ok _ => escAlertStep env short_reason (evs1 ++ [Ev.legacyMark])
    else
      escAlertStep env short_reason evs0

/-- `performEscalation` from `switchboard.ts`: the `try` body plus the
`catch` handler, which converts any thrown step error into the fallback
Telegram alert. The second component is the exception reaching the caller. -/
def performEscalation (env : EscEnv) (thread : SupportThread)
    (opts : EscalationOptions) : List Ev × Option String :=
  match performEscalationBody env thread opts with
  | (evs, none) => (evs, none)
  | (evs, some e) => (evs ++ [Ev.fallbackAlert e env.fallbackResult], none)

/-- Result of `lookupOrder` (`shopify-client.ts`; the orchestrator only
reads these fields). The order payload is carried opaquely as a string. -/
structure LookupResult where
  success : Bool
  order : Option String
  reason : String
  flags : List String
  escalation_needed : Bool
  deriving DecidableEq, Repr

/-- Result of `runReplyGenerator` (`auto-reply-pipeline.ts`). -/
structure ReplyResult where
  body : String
  escalate : Bool
  deriving DecidableEq, Repr

/-- The `SwitchboardOutcome.action` enum from `switchboard.ts`. -/
inductive SwAction where
  | ignore
  | auto_reply
  | shopify_lookup
  | escalated
  deriving DecidableEq, Repr

/-- `SwitchboardOutcome` from `switchboard.ts`: what the heartbeat records
into the Ledger. -/
structure SwitchboardOutcome where
  action : SwAction
  escalationReason : Option String
  deriving DecidableEq, Repr

/-- `CUSTOMER_PLACEHOLDER_DRAFT` from `switchboard.ts`. -/
def CUSTOMER_PLACEHOLDER_DRAFT : String :=
  "Thank you for your message. We\x27re looking into this and will get back to you shortly."

/-- Environment of one `runSwitchboard` call: configuration reads and the
results of the external calls it may await. `sendReply` catches internally
and reports success as a `Bool`; `archiveThread` and `lookupOrder` and
`runReplyGenerator` may reject. -/
structure SwbEnv where
  esc : EscEnv
  tenantStoreUrl : Option String
  shopifyAccessToken : String
  lookupResult : Except String LookupResult
  replyResult : Except String ReplyResult
  sendOk : Bool
  archiveResult : Except String Unit
  deriving DecidableEq, Repr

/-- Events of one escalation-terminal call as seen from the switchboard:
the invocation marker followed by the terminal's internal trace
(`performEscalation` never lets an exception escape, so the call site
treats it as a plain trace contribution). -/
def escCall (env : EscEnv) (thread : SupportThread)
    (opts : EscalationOptions) : List Ev :=
  Ev.escTerm opts :: (performEscalation env thread opts).1

/-- `runSwitchboard` from `switchboard.ts` (the outcome-returning version):
route a triage result to ignore, escalate, shopify_lookup or auto_reply.
Returns the event trace and either the outcome or the exception that
propagates to the heartbeat (`archiveThread`, `lookupOrder` and
`runReplyGenerator` are not guarded by a try/catch there). -/
def runSwitchboard (env : SwbEnv) (thread : SupportThread)
    (triage? : Option TriageResult) : List Ev × Except String SwitchboardOutcome :=
  match triage? with
  | none =>
    let opts := EscalationOptions.system "Triage output invalid."
      "Review and reply manually." none
    (escCall env.esc thread opts,
     .ok ⟨.escalated, some "Triage output invalid."⟩)
  | some triage =>
    match triage.action with
    | .ignore =>
      match env.archiveResult with
      | .error e => ([Ev.archive], .error e)
      | .ok _ => ([Ev.archive], .ok ⟨.ignore, none⟩)
    | .escalate =>
      let reason := jsOr triage.escalation_reason triage.reason
      let opts := EscalationOptions.customer
        ⟨false, reason, some CUSTOMER_PLACEHOLDER_DRAFT⟩ reason
      (escCall env.esc thread opts, .ok ⟨.escalated, some reason⟩)
    | .shopify_lookup =>
      let storeUrlMissing := !truthyOpt env.tenantStoreUrl
      let accessToken := jsTrim env.shopifyAccessToken
      if storeUrlMissing || accessToken = "" then
        let reason :=
          if storeUrlMissing then
            "Shopify store URL not configured (copy tenant.json.example to tenant.json or set TENANT_OVERRIDE_SHOPIFY_STORE_URL)."
          else
            "SHOPIFY_ACCESS_TOKEN not set. Parent Web Dashboard must perform OAuth and inject token at container boot."
        let opts := EscalationOptions.system reason
          "Configure Shopify (Web Dashboard OAuth → inject token) or reply manually." none
        (escCall env.esc thread opts, .ok ⟨.escalated, some reason⟩)
      else
        match env.lookupResult with
        | .error e => ([Ev.orderLookup], .error e)
        | .ok lookup =>
          if lookup.escalation_needed || !lookup.success then
            let reason := jsOrS lookup.reason "Shopify lookup failed."
            let opts := EscalationOptions.system reason
              "Review and check Shopify manually." (some reason)
            (Ev.orderLookup :: escCall env.esc thread opts,
             .ok ⟨.escalated, some reason⟩)
          else
            match env.replyResult with
            | .error e => ([Ev.orderLookup, Ev.replyGen], .error e)
            | .ok r =>
              if r.escalate || jsTrim r.body = "" then
                let reason := jsOrS (jsOr triage.escalation_reason triage.reason)
                  "Reply-generator chose to escalate or returned no body"
                let opts := EscalationOptions.customer
                  ⟨false, reason, some (jsOrS (jsTrim r.body) CUSTOMER_PLACEHOLDER_DRAFT)⟩
                  reason
                (Ev.orderLookup :: Ev.replyGen :: escCall env.esc thread opts,
                 .ok ⟨.escalated, some reason⟩)
              else
                if env.sendOk then
                  match env.archiveResult with
                  | .error e =>
                    ([Ev.orderLookup, Ev.replyGen, Ev.send r.body true, Ev.archive],
                     .error e)
                  | .ok _ =>
                    ([Ev.orderLookup, Ev.replyGen, Ev.send r.body true, Ev.archive],
                     .ok ⟨.shopify_lookup, none⟩)
                else
                  let opts := EscalationOptions.system "Gmail send failed."
                    "Review draft and send manually." none
                  (Ev.orderLookup :: Ev.replyGen :: Ev.send r.body false ::
                     escCall env.esc thread opts,
                   .ok ⟨.escalated, some "Gmail send failed."⟩)
    | .auto_reply =>
      match env.replyResult with
      | .error e => ([Ev.replyGen], .error e)
      | .ok r =>
        if r.escalate || jsTrim r.body = "" then
          let reason := jsOrS (jsOr triage.escalation_reason triage.reason)
            "Reply-generator chose to escalate or returned no body"
          let opts := EscalationOptions.customer
            ⟨false, reason, some (jsOrS (jsTrim r.body) CUSTOMER_PLACEHOLDER_DRAFT)⟩
            reason
          (Ev.replyGen :: escCall env.esc thread opts,
           .ok ⟨.escalated, some reason⟩)
        else
          if env.sendOk then
            match env.archiveResult with
            | .error e => ([Ev.replyGen, Ev.send r.body true, Ev.archive], .error e)
            | .ok _ =>
              ([Ev.replyGen, Ev.send r.body true, Ev.archive],
               .ok ⟨.auto_reply, none⟩)
          else
            let opts := EscalationOptions.system "Gmail send failed."
              "Review draft and send manually." none
            (Ev.replyGen :: Ev.send r.body false :: escCall env.esc thread opts,
             .ok ⟨.escalated, some "Gmail send failed."⟩)

/-- Is an event an escalation-terminal invocation? -/
def isEscTermEv (e : Ev) : Bool :=
  match e with
  | .escTerm _ => true
  | _ => false

/-- Is an event a `sendReply` attempt? -/
def isSendEv (e : Ev) : Bool :=
  match e with
  | .send _ _ => true
  | _ => false

/-- How many times the escalation terminal was invoked in a trace. -/
def countEsc (tr : List Ev) : Nat :=
  (tr.filter isEscTermEv).length

/-- How many `sendReply` attempts a trace contains. -/
def countSend (tr : List Ev) : Nat :=
  (tr.filter isSendEv).length

/-- An event that is neither an escalation-terminal invocation nor a
`sendReply` attempt. -/
def noRoute (e : Ev) : Bool :=
  !isEscTermEv e && !isSendEv e

/-- Characters strictly before the first `'>'`, or `none` when no `'>'`
follows (the `[^>]+` capture of the regex `/<([^>]+)>/` once a `'<'` has
been consumed). -/
def takeToGt : List Char → Option (List Char)
  | [] => none
  | c :: rest => if c = '>' then some [] else (takeToGt rest).map (c :: ·)

/-- Leftmost match of the regex `/<([^>]+)>/`: scan for a `'<'` followed by
at least one non-`'>'` character and a closing `'>'`; return the capture. -/
def angleInner : List Char → Option (List Char)
  | [] => none
  | c :: rest =>
    if c = '<' then
      match takeToGt rest with
      | some inner => if inner.isEmpty then angleInner rest else some inner
      | none => angleInner rest
    else angleInner rest

/-- `emailFromFromHeader` from `support-heartbeat.ts`: extract the address
from a `From` header (`"Name <u@x.com>"` or `"u@x.com"`), trimmed and
lowercased. -/
def emailFromFromHeader (fromHeader : String) : String :=
  match angleInner fromHeader.data with
  | some inner => jsLower (jsTrim ⟨inner⟩)
  | none => jsLower (jsTrim fromHeader)

/-- The string form of a `SwitchboardOutcome.action` as stored in the
Ledger (`markProcessed(..., outcome.action, ...)`). -/
def actionStr (a : SwAction) : String :=
  match a with
  | .ignore => "ignore"
  | .auto_reply => "auto_reply"
  | .shopify_lookup => "shopify_lookup"
  | .escalated => "escalated"

/-- The per-item memory-log line of the heartbeat (`appendMemoryLog` call):
thread id, subject, action, and the escalation reason when truthy. -/
def memLogEntry (threadId subject action : String)
    (escalationReason : Option String) : String :=
  let suffix :=
    match escalationReason with
    | some r => if r = "" then "" else "; escalation_reason=" ++ r
    | none => ""
  "- Thread " ++ threadId ++ " (" ++ subject ++ "): action=" ++ action ++ suffix

/-- Environment of one loop iteration of the heartbeat tick: the result of
`getThread` (which may reject), the triage result (`runTriage` catches all
its own failures and returns `null` on them), and the switchboard
environment. -/
structure ItemEnv where
  threadResult : Except String (Option SupportThread)
  triage : Option TriageResult
  swb : SwbEnv

/-- The `try`/`catch` body of the heartbeat loop (`support-heartbeat.ts`
lines 203-220): triage, switchboard, ledger write and memory log; on a
switchboard exception, the escalation terminal plus a ledger write with
action `escalated` and reason `Heartbeat error`. Returns the new Ledger
and the events of this item. The item counts as processed on both paths. -/
def processEligibleItem (tenantId : String) (ie : ItemEnv)
    (thread : SupportThread) (messageId : String) (l : Ledger) :
    Ledger × List Ev :=
  let (tr, res) := runSwitchboard ie.swb thread ie.triage
  match res with
  | .ok outcome =>
    let l' := markProcessed tenantId messageId thread.threadId
      (actionStr outcome.action) outcome.escalationReason l
    (l', tr ++ [Ev.memLog (memLogEntry thread.threadId thread.subject
      (actionStr outcome.action) outcome.escalationReason)])
  | .error e =>
    let opts := EscalationOptions.system e "Check logs and reply manually." none
    let l' := markProcessed tenantId messageId thread.threadId
      "escalated" (some "Heartbeat error") l
    (l', tr ++ escCall ie.swb.esc thread opts ++
      [Ev.memLog ("- Thread " ++ thread.threadId ++ " (" ++ thread.subject ++
        "): action=escalate; escalation_reason=Heartbeat error")])

/-- Result of one heartbeat tick. -/
inductive TickResult where
  | tick_ok
  | no_tick
  deriving DecidableEq, Repr

/-- Environment of one heartbeat tick: the listed thread ids, the result of
the `getProfile` call resolving the agent mailbox address, the tenant id,
and a per-thread item environment. -/
structure TickEnv where
  threadIds : List String
  profileEmail : Except String (Option String)
  tenantId : String
  items : String → ItemEnv

/-- The per-thread loop of `runOneHeartbeatTick`: for each thread id, fetch
the thread, apply the four skip guards (no thread / no messages, no
resolvable message id, last message authored by the support address, already
in the Ledger), and process the survivors. Accumulates the Ledger, the
event trace and the processed counter; a `getThread` rejection aborts the
whole tick with the thrown error (it is outside the per-item `try`). -/
def tickLoop (tenantId supportEmail : String) (items : String → ItemEnv) :
    List String → Ledger → List Ev → Nat →
    (Ledger × List Ev × Nat) ⊕ String
  | [], l, tr, n => .inl (l, tr, n)
  | tid :: rest, l, tr, n =>
    match (items tid).threadResult with
    | .error e => .inr e
    | .ok none => tickLoop tenantId supportEmail items rest l tr n
    | .ok (some thread) =>
      match thread.messages.getLast? with
      | none => tickLoop tenantId supportEmail items rest l tr n
      | some latest =>
        let messageId := jsTrim latest.messageId
        if messageId = "" then
          tickLoop tenantId supportEmail items rest l tr n
        else
          let fromEmail := emailFromFromHeader latest.fromHeader
          if fromEmail ≠ "" && supportEmail ≠ "" && fromEmail == supportEmail then
            tickLoop tenantId supportEmail items rest l tr n
          else if hasProcessed tenantId messageId l then
            tickLoop tenantId supportEmail items rest l tr n
          else
            let (l', itr) := processEligibleItem tenantId (items tid) thread messageId l
            tickLoop tenantId supportEmail items rest l' (tr ++ itr) (n + 1)

/-- `runOneHeartbeatTick` from `support-heartbeat.ts` (the Ledger-based
version): empty listing → `no_tick`; profile-resolution failure →
`no_tick`; otherwise run the loop and answer `tick_ok` iff the processed
counter is positive. Returns the tick result, the final Ledger, the event
trace and the processed count, or the exception aborting the tick. -/
def runOneHeartbeatTick (env : TickEnv) (l0 : Ledger) :
    Except String (TickResult × Ledger × List Ev × Nat) :=
  if env.threadIds.isEmpty then .ok (.no_tick, l0, [], 0)
  else
    match env.profileEmail with
    | .error _ => .ok (.no_tick, l0, [], 0)
    | .ok addr? =>
      let supportEmail := jsLower (jsTrim (addr?.getD ""))
      match tickLoop env.tenantId supportEmail env.items env.threadIds l0 [] 0 with
      | .inr e => .error e
      | .inl (l, tr, n) =>
        .ok ((if 0 < n then .tick_ok else .no_tick), l, tr, n)

/-- Sample escalation environment: every step succeeds. -/
def escEnvOk : EscEnv :=
  ⟨Except.ok (some "LBL1"), Except.ok true, Except.ok (), Except.ok (),
   Except.ok true, true⟩

/-- Sample escalation environment: `markThreadHandled` rejects. -/
def escEnvMarkFail : EscEnv :=
  ⟨Except.ok (some "LBL1"), Except.ok true, Except.error "gmail 500",
   Except.ok (), Except.ok true, true⟩

/-- Sample one-message customer thread. -/
def sampleThread : SupportThread :=
  ⟨"th-1", "Order question",
   [⟨"Alice <alice@example.com>", "Order question", "Mon", "Where is my order?",
     "<mid-1>"⟩]⟩

/-- Sample triage result with a chosen action. -/
def sampleTriage (act : TriageAction) : TriageResult :=
  ⟨"order_status", act, [], none, none, false, 90, "neutral", "base reason",
   [], none⟩

/-- Sample successful order lookup. -/
def sampleLookupOk : LookupResult :=
  ⟨true, some "order-1001", "", [], false⟩

/-- Sample switchboard environment: reply generation succeeds with a
nonempty body but the Gmail send reports failure. -/
def swbEnvSendFail : SwbEnv :=
  ⟨escEnvOk, some "https://shop.example", "tok", Except.ok sampleLookupOk,
   Except.ok ⟨"Hi there", false⟩, false, Except.ok ()⟩

/-- Sample switchboard environment: reply generation returns a body that is
empty after trimming, with the escalate flag clear. -/
def swbEnvEmptyBody : SwbEnv :=
  ⟨escEnvOk, some "https://shop.example", "tok", Except.ok sampleLookupOk,
   Except.ok ⟨"  ", false⟩, true, Except.ok ()⟩

/-- Sample options for exercising the escalation terminal directly. -/
def sampleEscOpts : EscalationOptions :=
  EscalationOptions.system "boom" "fix it" none

/-- Sample per-item environment for the send-failure scenario. -/
def itemEnvSendFail : ItemEnv :=
  ⟨Except.ok (some sampleThread), some (sampleTriage TriageAction.auto_reply),
   swbEnvSendFail⟩

/-- Tick environment with an empty listing. -/
def tickEnvEmpty : TickEnv :=
  ⟨[], Except.ok (some "support@shop.example"), "tenant-1",
   fun _ => itemEnvSendFail⟩

/-- Thread whose last message is authored by the support address itself and
whose body carries a would-be test-correlation marker. -/
def selfAuthoredThread : SupportThread :=
  ⟨"th-1", "Ping",
   [⟨"Support Bot <support@shop.example>", "Ping", "Mon",
     "ping [test-correlation: demo-123]", "<mid-9>"⟩]⟩

/-- Tick environment listing only the self-authored thread. -/
def tickEnvSelfAuthored : TickEnv :=
  ⟨["th-1"], Except.ok (some "support@shop.example"), "tenant-1",
   fun _ => ⟨Except.ok (some selfAuthoredThread),
     some (sampleTriage TriageAction.auto_reply), swbEnvSendFail⟩⟩

theorem normalizeMessageId_bracket (id : String) :
    normalizeMessageId ("<" ++ id ++ ">") = id := by
  have hdata : ("<" ++ id ++ ">").data = '<' :: (id.data ++ ['>']) := by
    simp [String.data_append]
  have htrim : trimChars ('<' :: (id.data ++ ['>'])) = '<' :: (id.data ++ ['>']) := by
    simp [trimChars, List.dropWhile, isJsWs, List.reverse_append]
  have hlast : (id.data ++ ['>']).getLast? = some '>' := by
    simp
  have hdrop : (id.data ++ ['>']).dropLast = id.data := by
    simp
  simp [normalizeMessageId, hdata, htrim, stripAngles, hlast, hdrop]

theorem string_ne_empty_of_data_cons {s : String} {c : Char} {cs : List Char}
    (h : s.data = c :: cs) : s ≠ "" := by
  intro he
  rw [he] at h
  simp at h

theorem bracket_ne_empty (id : String) : ("<" ++ id ++ ">") ≠ "" := by
  have h : ("<" ++ id ++ ">").data = '<' :: (id.data ++ ['>']) := by
    simp [String.data_append]
  exact string_ne_empty_of_data_cons h

theorem markProcessed_eq (t m tid a : String) (r : Option String) (l : Ledger)
    (hm : m ≠ "") (ht : t ≠ "") (htid : tid ≠ "") :
    markProcessed t m tid a r l =
      if l.any (rowKeyMatch t (normalizeMessageId m)) then
        l.map fun row =>
          if rowKeyMatch t (normalizeMessageId m) row then
            { row with thread_id := tid, action := a, escalation_reason := r }
          else row
      else l ++ [⟨t, normalizeMessageId m, tid, a, r⟩] := by
  simp [markProcessed, hm, ht, htid]

theorem rowKeyMatch_update (t mid tid a : String) (r : Option String) (row : Row) :
    rowKeyMatch t mid
      { row with thread_id := tid, action := a, escalation_reason := r } =
      rowKeyMatch t mid row := by
  simp [rowKeyMatch]

theorem countKey_pos_of_any {l : Ledger} {t m : String}
    (h : l.any (rowKeyMatch t (normalizeMessageId m)) = true) :
    0 < countKey l t m := by
  rcases List.any_eq_true.1 h with ⟨row, hrow, hmatch⟩
  have : row ∈ l.filter (rowKeyMatch t (normalizeMessageId m)) :=
    List.mem_filter.2 ⟨hrow, hmatch⟩
  exact List.length_pos.2 (List.ne_nil_of_mem this)

theorem countKey_zero_of_not_any {l : Ledger} {t m : String}
    (h : l.any (rowKeyMatch t (normalizeMessageId m)) = false) :
    countKey l t m = 0 := by
  unfold countKey
  rw [List.length_eq_zero, List.filter_eq_nil_iff]
  intro row hrow hmatch
  exact absurd (List.any_eq_true.2 ⟨row, hrow, hmatch⟩) (by simp [h])

theorem countKey_markProcessed (t m tid a : String) (r : Option String) (l : Ledger)
    (hm : m ≠ "") (ht : t ≠ "") (htid : tid ≠ "") :
    countKey (markProcessed t m tid a r l) t m =
      if countKey l t m = 0 then 1 else countKey l t m := by
  rw [markProcessed_eq t m tid a r l hm ht htid]
  by_cases hany : l.any (rowKeyMatch t (normalizeMessageId m)) = true
  · have hpos := countKey_pos_of_any hany
    rw [if_pos hany, if_neg (Nat.pos_iff_ne_zero.1 hpos)]
    unfold countKey
    rw [← List.countP_eq_length_filter, ← List.countP_eq_length_filter,
      List.countP_map]
    apply List.countP_congr
    intro row _
    by_cases hk : rowKeyMatch t (normalizeMessageId m) row = true
    · simp [Function.comp, hk, rowKeyMatch_update]
    · simp only [Bool.not_eq_true] at hk
      simp [Function.comp, hk]
  · simp only [Bool.not_eq_true] at hany
    have hz := countKey_zero_of_not_any hany
    rw [if_neg (by simp [hany]), if_pos hz]
    unfold countKey
    rw [List.filter_append]
    have hnew : rowKeyMatch t (normalizeMessageId m)
        ⟨t, normalizeMessageId m, tid, a, r⟩ = true := by
      simp [rowKeyMatch]
    unfold countKey at hz
    rw [List.length_eq_zero] at hz
    simp [hz, hnew]

theorem markProcessed_key_rows (t m tid a : String) (r : Option String) (l : Ledger)
    (hm : m ≠ "") (ht : t ≠ "") (htid : tid ≠ "") :
    ∀ row ∈ markProcessed t m tid a r l,
      rowKeyMatch t (normalizeMessageId m) row = true →
      row.action = a ∧ row.escalation_reason = r ∧ row.thread_id = tid := by
  rw [markProcessed_eq t m tid a r l hm ht htid]
  by_cases hany : l.any (rowKeyMatch t (normalizeMessageId m)) = true
  · rw [if_pos hany]
    intro row hrow hmatch
    rcases List.mem_map.1 hrow with ⟨row0, _, rfl⟩
    by_cases hk : rowKeyMatch t (normalizeMessageId m) row0 = true
    · simp [hk]
    · simp only [Bool.not_eq_true] at hk
      rw [if_neg (by simp [hk])] at hmatch
      exact absurd hmatch (by simp [hk])
  · rw [if_neg hany]
    intro row hrow hmatch
    rcases List.mem_append.1 hrow with hin | hin
    · exact absurd (List.any_eq_true.2 ⟨row, hin, hmatch⟩) hany
    · rcases List.mem_singleton.1 hin with rfl
      exact ⟨rfl, rfl, rfl⟩

theorem markProcessed_exists_key (t m tid a : String) (r : Option String) (l : Ledger)
    (hm : m ≠ "") (ht : t ≠ "") (htid : tid ≠ "") :
    ∃ row ∈ markProcessed t m tid a r l,
      rowKeyMatch t (normalizeMessageId m) row = true := by
  rw [markProcessed_eq t m tid a r l hm ht htid]
  by_cases hany : l.any (rowKeyMatch t (normalizeMessageId m)) = true
  · rw [if_pos hany]
    rcases List.any_eq_true.1 hany with ⟨row, hrow, hmatch⟩
    refine ⟨_, List.mem_map_of_mem _ hrow, ?_⟩
    simp [hmatch, rowKeyMatch_update]
  · rw [if_neg hany]
    exact ⟨⟨t, normalizeMessageId m, tid, a, r⟩,
      List.mem_append_right _ (List.mem_singleton.2 rfl), by simp [rowKeyMatch]⟩

theorem hasProcessed_of_exists_key {t m : String} {l : Ledger}
    (hm : m ≠ "") (ht : t ≠ "")
    (h : ∃ row ∈ l, rowKeyMatch t (normalizeMessageId m) row = true) :
    hasProcessed t m l = true := by
  unfold hasProcessed
  rw [if_neg (by simp [hm, ht])]
  exact List.any_eq_true.2 h

/-- C1: a second `markProcessed` with the same tenant, message id and thread
id leaves exactly one Ledger row keyed by `(t, normalized m)`, and that
row carries the second call's `action` and `escalation_reason` (the second
write is an in-place update, never a duplicate row). The hypothesis
`countKey l t m ≤ 1` is the `UNIQUE(tenant_id, gmail_message_id)`
constraint of the underlying table. -/
theorem claim_C1_mark_processed_idempotent_upsert
    (t m tid a1 a2 : String) (r1 r2 : Option String) (l : Ledger)
    (ht : t ≠ "") (hm : m ≠ "") (htid : tid ≠ "")
    (huniq : countKey l t m ≤ 1) :
    countKey (markProcessed t m tid a2 r2 (markProcessed t m tid a1 r1 l)) t m = 1 ∧
    ∀ row ∈ markProcessed t m tid a2 r2 (markProcessed t m tid a1 r1 l),
      rowKeyMatch t (normalizeMessageId m) row = true →
      row.action = a2 ∧ row.escalation_reason = r2 ∧ row.thread_id = tid := by
  have h1 : countKey (markProcessed t m tid a1 r1 l) t m = 1 := by
    rw [countKey_markProcessed t m tid a1 r1 l hm ht htid]
    rcases Nat.le_one_iff_eq_zero_or_eq_one.1 huniq with h0 | h0 <;> simp [h0]
  constructor
  · rw [countKey_markProcessed t m tid a2 r2 _ hm ht htid, h1]
    simp
  · exact markProcessed_key_rows t m tid a2 r2 _ hm ht htid

/-- Witness for C1 at a concrete input. -/
theorem claim_C1_mark_processed_idempotent_upsert_witness :
    countKey (markProcessed "t1" "m1" "th1" "escalated" (some "r2")
      (markProcessed "t1" "m1" "th1" "auto_reply" none [])) "t1" "m1" = 1 ∧
    ∀ row ∈ markProcessed "t1" "m1" "th1" "escalated" (some "r2")
      (markProcessed "t1" "m1" "th1" "auto_reply" none []),
      rowKeyMatch "t1" (normalizeMessageId "m1") row = true →
      row.action = "escalated" ∧ row.escalation_reason = some "r2" ∧
      row.thread_id = "th1" :=
  claim_C1_mark_processed_idempotent_upsert "t1" "m1" "th1" "auto_reply" "escalated"
    none (some "r2") [] (by decide) (by decide) (by decide) (by decide)

/-- C2 fails as stated: for the bare identifier `id = ""` (and likewise for
identifiers that are not fixed by normalization, e.g. `" x"`), the two
forms disagree after `markProcessed` of the bracketed form: the bracketed
query finds the record while the bare query does not. -/
theorem claim_C2_counterexample :
    (hasProcessed "t1" "<>" (markProcessed "t1" "<>" "th1" "a" none []) = true ∧
     hasProcessed "t1" "" (markProcessed "t1" "<>" "th1" "a" none []) = false) ∧
    (hasProcessed "t1" "< x>" (markProcessed "t1" "< x>" "th1" "a" none []) = true ∧
     hasProcessed "t1" " x" (markProcessed "t1" "< x>" "th1" "a" none []) = false) := by
  decide

/-- C2 (amended): for every tenant `t` and bare identifier `id` that is
nonempty and already in normalized form (`normalizeMessageId id = id`),
after `markProcessed(t, "<id>", ...)` both `hasProcessed(t, "<id>")` and
`hasProcessed(t, id)` return `true`: the Ledger normalizes bracketed and
bare forms before keying so both forms collide. -/
theorem claim_C2_identifier_normalization
    (t id tid a : String) (r : Option String) (l : Ledger)
    (ht : t ≠ "") (htid : tid ≠ "") (hid : id ≠ "")
    (hnorm : normalizeMessageId id = id) :
    hasProcessed t ("<" ++ id ++ ">")
      (markProcessed t ("<" ++ id ++ ">") tid a r l) = true ∧
    hasProcessed t id (markProcessed t ("<" ++ id ++ ">") tid a r l) = true := by
  have hbr : ("<" ++ id ++ ">") ≠ "" := bracket_ne_empty id
  have hkey := markProcessed_exists_key t ("<" ++ id ++ ">") tid a r l hbr ht htid
  constructor
  · exact hasProcessed_of_exists_key hbr ht hkey
  · apply hasProcessed_of_exists_key hid ht
    have heq : normalizeMessageId id = normalizeMessageId ("<" ++ id ++ ">") := by
      rw [hnorm, normalizeMessageId_bracket]
    rw [heq]
    exact hkey

/-- Witness for the amended C2 at a concrete input. -/
theorem claim_C2_identifier_normalization_witness :
    hasProcessed "t1" ("<" ++ "m1" ++ ">")
      (markProcessed "t1" ("<" ++ "m1" ++ ">") "th1" "auto_reply" none []) = true ∧
    hasProcessed "t1" "m1"
      (markProcessed "t1" ("<" ++ "m1" ++ ">") "th1" "auto_reply" none []) = true :=
  claim_C2_identifier_normalization "t1" "m1" "th1" "auto_reply" none []
    (by decide) (by decide) (by decide) (by decide)

/-- C3 fails as stated: with a failing store and nonempty identifiers,
`hasProcessed` propagates the storage error to the caller instead of
returning `false` (`ledger.ts` has no try/catch around `getDb()` and the
query). -/
theorem claim_C3_counterexample :
    hasProcessedE (Except.error "storage failure") "t1" "m1" =
      Except.error "storage failure" ∧
    (Except.error "storage failure" : Except String Bool) ≠ Except.ok false := by
  constructor
  · rfl
  · decide

/-- C3 (amended): `hasProcessed` returns `false` without consulting storage
when the tenant or message identifier is empty (so even a broken store is
not touched); otherwise a storage error is not caught and propagates to
the caller. -/
theorem claim_C3_has_processed_storage_error (e t m : String) :
    hasProcessedE (Except.error e) t m =
      if m = "" ∨ t = "" then Except.ok false else Except.error e := by
  by_cases hc : m = "" ∨ t = "" <;> simp [hasProcessedE, hc]

/-- C10: `markProcessed` with an empty tenant, message or thread identifier
returns without writing (the Ledger is unchanged), and `hasProcessed` with
an empty tenant or message identifier returns `false` without querying
(even on a store whose access would fail). -/
theorem claim_C10_empty_identifier_guards
    (t m tid a : String) (r : Option String) (l : Ledger)
    (db : Except String Ledger) :
    (m = "" ∨ t = "" ∨ tid = "" → markProcessed t m tid a r l = l) ∧
    (m = "" ∨ t = "" → hasProcessedE db t m = Except.ok false) := by
  constructor
  · intro hc
    simp [markProcessed, hc]
  · intro hc
    simp [hasProcessedE, hc]

/-- Witness for C10 at a concrete input (empty message identifier, broken
store). -/
theorem claim_C10_empty_identifier_guards_witness :
    markProcessed "t1" "" "th1" "a" none [] = [] ∧
    hasProcessedE (Except.error "storage failure") "t1" "" = Except.ok false :=
  ⟨(claim_C10_empty_identifier_guards "t1" "" "th1" "a" none []
      (Except.error "storage failure")).1 (Or.inl rfl),
   (claim_C10_empty_identifier_guards "t1" "" "th1" "a" none []
      (Except.error "storage failure")).2 (Or.inl rfl)⟩


theorem all_noRoute_escAlertStep (env : EscEnv) (sr : String) (evs : List Ev) :
    (escAlertStep env sr evs).1.all noRoute = evs.all noRoute := by
  unfold escAlertStep
  split <;> simp [noRoute, isEscTermEv, isSendEv]

theorem noRoute_performEscalationBody (env : EscEnv) (th : SupportThread)
    (opts : EscalationOptions) :
    (performEscalationBody env th opts).1.all noRoute = true := by
  simp only [performEscalationBody]
  (repeat' split) <;>
    first
      | rfl
      | (rw [all_noRoute_escAlertStep] <;> simp [noRoute, isEscTermEv, isSendEv])

theorem noRoute_performEscalation (env : EscEnv) (th : SupportThread)
    (opts : EscalationOptions) :
    (performEscalation env th opts).1.all noRoute = true := by
  have hbody := noRoute_performEscalationBody env th opts
  unfold performEscalation
  split
  next evs heq =>
    rw [heq] at hbody
    exact hbody
  next evs e heq =>
    rw [heq] at hbody
    simp only at hbody
    simp only [List.all_append, hbody, Bool.true_and, List.all_cons, List.all_nil]
    simp [noRoute, isEscTermEv, isSendEv]

theorem count_zero_of_all_noRoute {p : Ev → Bool} {tr : List Ev}
    (hp : ∀ e, noRoute e = true → p e = false)
    (h : tr.all noRoute = true) : (tr.filter p).length = 0 := by
  rw [List.length_eq_zero, List.filter_eq_nil_iff]
  intro e he
  have := List.all_eq_true.1 h e he
  simp [hp e this]

theorem countEsc_performEscalation (env : EscEnv) (th : SupportThread)
    (opts : EscalationOptions) : countEsc (performEscalation env th opts).1 = 0 := by
  unfold countEsc
  refine count_zero_of_all_noRoute ?_ (noRoute_performEscalation env th opts)
  intro e he
  unfold noRoute at he
  simp at he
  simp [he.1]

theorem countSend_performEscalation (env : EscEnv) (th : SupportThread)
    (opts : EscalationOptions) : countSend (performEscalation env th opts).1 = 0 := by
  unfold countSend
  refine count_zero_of_all_noRoute ?_ (noRoute_performEscalation env th opts)
  intro e he
  unfold noRoute at he
  simp at he
  simp [he.2]

theorem countEsc_escCall (env : EscEnv) (th : SupportThread)
    (opts : EscalationOptions) : countEsc (escCall env th opts) = 1 := by
  have h := countEsc_performEscalation env th opts
  unfold countEsc at h ⊢
  unfold escCall
  rw [List.filter_cons]
  simp [isEscTermEv, h]

theorem countSend_escCall (env : EscEnv) (th : SupportThread)
    (opts : EscalationOptions) : countSend (escCall env th opts) = 0 := by
  have h := countSend_performEscalation env th opts
  unfold countSend at h ⊢
  unfold escCall
  rw [List.filter_cons]
  simp [isSendEv, h]

/-- C9: `performEscalation` never raises an exception to its caller, for
every environment (including ones where the label, draft, mark-handled or
alert calls reject) and every escalation option: the `catch` converts any
error thrown inside the body into the fallback Telegram alert, so
escalation always terminates the item. -/
theorem claim_C9_perform_escalation_never_raises (env : EscEnv)
    (th : SupportThread) (opts : EscalationOptions) :
    (performEscalation env th opts).2 = none ∧
    (∀ e, (performEscalationBody env th opts).2 = some e →
      Ev.fallbackAlert e env.fallbackResult ∈ (performEscalation env th opts).1) := by
  unfold performEscalation
  cases hbody : performEscalationBody env th opts with
  | mk evs err =>
    cases err with
    | none =>
      refine ⟨rfl, ?_⟩
      intro e he
      simp at he
    | some a =>
      refine ⟨rfl, ?_⟩
      intro e he
      simp only at he
      cases he
      simp

/-- Witness for C9 at a concrete input where the mark-handled step throws. -/
theorem claim_C9_perform_escalation_never_raises_witness :
    (performEscalation escEnvMarkFail sampleThread sampleEscOpts).2 = none ∧
    Ev.fallbackAlert "gmail 500" escEnvMarkFail.fallbackResult ∈
      (performEscalation escEnvMarkFail sampleThread sampleEscOpts).1 :=
  ⟨(claim_C9_perform_escalation_never_raises escEnvMarkFail sampleThread
      sampleEscOpts).1,
   (claim_C9_perform_escalation_never_raises escEnvMarkFail sampleThread
      sampleEscOpts).2 "gmail 500" (by decide)⟩

/-- C4: a `null` triage result is routed like an explicit `escalate`: both
invoke the escalation terminal exactly once, attempt no send, and return
an outcome with `action = escalated`. -/
theorem claim_C4_null_triage_routes_as_escalate (env : SwbEnv)
    (thread : SupportThread) (t : TriageResult) (ha : t.action = .escalate) :
    (∃ o, (runSwitchboard env thread none).2 = Except.ok o ∧
      o.action = SwAction.escalated) ∧
    (∃ o, (runSwitchboard env thread (some t)).2 = Except.ok o ∧
      o.action = SwAction.escalated) ∧
    countEsc (runSwitchboard env thread none).1 = 1 ∧
    countEsc (runSwitchboard env thread (some t)).1 = 1 ∧
    countSend (runSwitchboard env thread none).1 = 0 ∧
    countSend (runSwitchboard env thread (some t)).1 = 0 := by
  obtain ⟨cat, act, tf, eon, ee, rs, cf, st, rsn, fl, er⟩ := t
  simp only at ha
  subst ha
  refine ⟨⟨_, rfl, rfl⟩, ⟨_, rfl, rfl⟩, ?_, ?_, ?_, ?_⟩ <;>
    simp [runSwitchboard, countEsc_escCall, countSend_escCall]

/-- Witness for C4 at a concrete input. -/
theorem claim_C4_null_triage_routes_as_escalate_witness :
    (∃ o, (runSwitchboard swbEnvSendFail sampleThread none).2 = Except.ok o ∧
      o.action = SwAction.escalated) ∧
    (∃ o, (runSwitchboard swbEnvSendFail sampleThread
        (some (sampleTriage TriageAction.escalate))).2 = Except.ok o ∧
      o.action = SwAction.escalated) ∧
    countEsc (runSwitchboard swbEnvSendFail sampleThread none).1 = 1 ∧
    countEsc (runSwitchboard swbEnvSendFail sampleThread
      (some (sampleTriage TriageAction.escalate))).1 = 1 ∧
    countSend (runSwitchboard swbEnvSendFail sampleThread none).1 = 0 ∧
    countSend (runSwitchboard swbEnvSendFail sampleThread
      (some (sampleTriage TriageAction.escalate))).1 = 0 :=
  claim_C4_null_triage_routes_as_escalate swbEnvSendFail sampleThread
    (sampleTriage TriageAction.escalate) rfl

theorem countEsc_cons (e : Ev) (tr : List Ev) :
    countEsc (e :: tr) = (if isEscTermEv e then 1 else 0) + countEsc tr := by
  unfold countEsc
  rw [List.filter_cons]
  split <;> simp [Nat.add_comm]

theorem countSend_cons (e : Ev) (tr : List Ev) :
    countSend (e :: tr) = (if isSendEv e then 1 else 0) + countSend tr := by
  unfold countSend
  rw [List.filter_cons]
  split <;> simp [Nat.add_comm]

theorem countEsc_nil : countEsc [] = 0 := rfl

theorem countSend_nil : countSend [] = 0 := rfl

theorem countEsc_append (tr tr' : List Ev) :
    countEsc (tr ++ tr') = countEsc tr + countEsc tr' := by
  unfold countEsc
  rw [List.filter_append, List.length_append]

theorem countSend_append (tr tr' : List Ev) :
    countSend (tr ++ tr') = countSend tr + countSend tr' := by
  unfold countSend
  rw [List.filter_append, List.length_append]

/-- The auto-reply branch with a generated reply and a failed send:
escalation terminal with reason `Gmail send failed.`, outcome `escalated`. -/
theorem runSwitchboard_auto_reply_send_failed (env : SwbEnv)
    (thread : SupportThread) (t : TriageResult) (b : String)
    (ha : t.action = TriageAction.auto_reply)
    (hr : env.replyResult = Except.ok ⟨b, false⟩)
    (hb : jsTrim b ≠ "") (hs : env.sendOk = false) :
    runSwitchboard env thread (some t) =
      (Ev.replyGen :: Ev.send b false :: escCall env.esc thread
         (EscalationOptions.system "Gmail send failed."
           "Review draft and send manually." none),
       Except.ok ⟨SwAction.escalated, some "Gmail send failed."⟩) := by
  obtain ⟨cat, act, tf, eon, ee, rs, cf, st, rsn, fl, er⟩ := t
  simp only at ha
  subst ha
  simp [runSwitchboard, hr, hb, hs]

/-- The commerce-lookup branch with configured store, successful lookup, a
generated reply and a failed send. -/
theorem runSwitchboard_shopify_send_failed (env : SwbEnv)
    (thread : SupportThread) (t : TriageResult) (b : String) (lk : LookupResult)
    (ha : t.action = TriageAction.shopify_lookup)
    (hurl : truthyOpt env.tenantStoreUrl = true)
    (htok : jsTrim env.shopifyAccessToken ≠ "")
    (hlk : env.lookupResult = Except.ok lk)
    (hesc : lk.escalation_needed = false) (hsucc : lk.success = true)
    (hr : env.replyResult = Except.ok ⟨b, false⟩)
    (hb : jsTrim b ≠ "") (hs : env.sendOk = false) :
    runSwitchboard env thread (some t) =
      (Ev.orderLookup :: Ev.replyGen :: Ev.send b false :: escCall env.esc thread
         (EscalationOptions.system "Gmail send failed."
           "Review draft and send manually." none),
       Except.ok ⟨SwAction.escalated, some "Gmail send failed."⟩) := by
  obtain ⟨cat, act, tf, eon, ee, rs, cf, st, rsn, fl, er⟩ := t
  simp only at ha
  subst ha
  simp [runSwitchboard, hurl, htok, hlk, hesc, hsucc, hr, hb, hs]

/-- C7: a reply result whose body is empty after trimming is routed exactly
like a result with the explicit escalate flag set — the two runs are equal
— and on that run no send is attempted, the escalation terminal is invoked
exactly once and the outcome is `escalated`. Stated for both branches that
run the reply pipeline (auto-reply and a successful commerce lookup). -/
theorem claim_C7_empty_body_is_escalate (env : SwbEnv)
    (thread : SupportThread) (t : TriageResult) (b : String) (lk : LookupResult)
    (hr : env.replyResult = Except.ok ⟨b, false⟩)
    (hb : jsTrim b = "")
    (hbr : t.action = TriageAction.auto_reply ∨
      (t.action = TriageAction.shopify_lookup ∧
        truthyOpt env.tenantStoreUrl = true ∧
        jsTrim env.shopifyAccessToken ≠ "" ∧
        env.lookupResult = Except.ok lk ∧
        lk.escalation_needed = false ∧ lk.success = true)) :
    runSwitchboard env thread (some t) =
      runSwitchboard { env with replyResult := Except.ok ⟨b, true⟩ } thread (some t) ∧
    countSend (runSwitchboard env thread (some t)).1 = 0 ∧
    countEsc (runSwitchboard env thread (some t)).1 = 1 ∧
    (∃ o, (runSwitchboard env thread (some t)).2 = Except.ok o ∧
      o.action = SwAction.escalated) := by
  obtain ⟨cat, act, tf, eon, ee, rs, cf, st, rsn, fl, er⟩ := t
  rcases hbr with ha | ⟨ha, hurl, htok, hlk, hesc, hsucc⟩ <;>
    simp only at ha <;> subst ha
  · refine ⟨?_, ?_, ?_, ?_⟩ <;>
      simp [runSwitchboard, hr, hb, countSend_cons, countEsc_cons,
        countSend_escCall, countEsc_escCall, isEscTermEv, isSendEv]
  · refine ⟨?_, ?_, ?_, ?_⟩ <;>
      simp [runSwitchboard, hr, hb, hurl, htok, hlk, hesc, hsucc,
        countSend_cons, countEsc_cons, countSend_escCall, countEsc_escCall,
        isEscTermEv, isSendEv]

/-- Witness for C7 at a concrete input (auto-reply branch, body of blanks). -/
theorem claim_C7_empty_body_is_escalate_witness :
    runSwitchboard swbEnvEmptyBody sampleThread
        (some (sampleTriage TriageAction.auto_reply)) =
      runSwitchboard { swbEnvEmptyBody with replyResult := Except.ok ⟨"  ", true⟩ }
        sampleThread (some (sampleTriage TriageAction.auto_reply)) ∧
    countSend (runSwitchboard swbEnvEmptyBody sampleThread
      (some (sampleTriage TriageAction.auto_reply))).1 = 0 ∧
    countEsc (runSwitchboard swbEnvEmptyBody sampleThread
      (some (sampleTriage TriageAction.auto_reply))).1 = 1 ∧
    (∃ o, (runSwitchboard swbEnvEmptyBody sampleThread
        (some (sampleTriage TriageAction.auto_reply))).2 = Except.ok o ∧
      o.action = SwAction.escalated) :=
  claim_C7_empty_body_is_escalate swbEnvEmptyBody sampleThread
    (sampleTriage TriageAction.auto_reply) "  " sampleLookupOk rfl (by decide)
    (Or.inl rfl)

/-- C5: in the auto-reply and commerce-lookup branches, when the send
reports failure after a successful reply generation, the switchboard
outcome is `escalated` with reason `Gmail send failed.`, the escalation
terminal is invoked exactly once for the item, exactly one send is
attempted, and the item is still recorded in the Ledger as processed with
action `escalated` — so a later occurrence of the same message in the tick
is skipped (`hasProcessed` is `true`) and no second send can happen. -/
theorem claim_C5_send_failure_escalates_once (tenantId : String) (ie : ItemEnv)
    (thread : SupportThread) (messageId : String) (l : Ledger)
    (t : TriageResult) (b : String) (lk : LookupResult)
    (htri : ie.triage = some t)
    (hr : ie.swb.replyResult = Except.ok ⟨b, false⟩)
    (hb : jsTrim b ≠ "") (hs : ie.swb.sendOk = false)
    (hten : tenantId ≠ "") (hmid : messageId ≠ "") (hth : thread.threadId ≠ "")
    (hbr : t.action = TriageAction.auto_reply ∨
      (t.action = TriageAction.shopify_lookup ∧
        truthyOpt ie.swb.tenantStoreUrl = true ∧
        jsTrim ie.swb.shopifyAccessToken ≠ "" ∧
        ie.swb.lookupResult = Except.ok lk ∧
        lk.escalation_needed = false ∧ lk.success = true)) :
    (runSwitchboard ie.swb thread ie.triage).2 =
      Except.ok ⟨SwAction.escalated, some "Gmail send failed."⟩ ∧
    countEsc (processEligibleItem tenantId ie thread messageId l).2 = 1 ∧
    countSend (processEligibleItem tenantId ie thread messageId l).2 = 1 ∧
    hasProcessed tenantId messageId
      (processEligibleItem tenantId ie thread messageId l).1 = true ∧
    (∃ row ∈ (processEligibleItem tenantId ie thread messageId l).1,
      rowKeyMatch tenantId (normalizeMessageId messageId) row = true ∧
      row.action = "escalated") := by
  have hsw : runSwitchboard ie.swb thread ie.triage =
      ((match t.action with
        | TriageAction.shopify_lookup => [Ev.orderLookup]
        | _ => []) ++ Ev.replyGen :: Ev.send b false :: escCall ie.swb.esc thread
         (EscalationOptions.system "Gmail send failed."
           "Review draft and send manually." none),
       Except.ok ⟨SwAction.escalated, some "Gmail send failed."⟩) := by
    rcases hbr with ha | ⟨ha, hurl, htok, hlk, hesc, hsucc⟩
    · rw [htri, runSwitchboard_auto_reply_send_failed ie.swb thread t b ha hr hb hs,
        ha]
      rfl
    · rw [htri,
        runSwitchboard_shopify_send_failed ie.swb thread t b lk ha hurl htok hlk
          hesc hsucc hr hb hs, ha]
      rfl
  have hmark := markProcessed_exists_key tenantId messageId thread.threadId
    "escalated" (some "Gmail send failed.") l hmid hten hth
  have hrows := markProcessed_key_rows tenantId messageId thread.threadId
    "escalated" (some "Gmail send failed.") l hmid hten hth
  have hpe : processEligibleItem tenantId ie thread messageId l =
      (markProcessed tenantId messageId thread.threadId "escalated"
        (some "Gmail send failed.") l,
       ((match t.action with
         | TriageAction.shopify_lookup => [Ev.orderLookup]
         | _ => []) ++ Ev.replyGen :: Ev.send b false :: escCall ie.swb.esc thread
          (EscalationOptions.system "Gmail send failed."
            "Review draft and send manually." none)) ++
        [Ev.memLog (memLogEntry thread.threadId thread.subject "escalated"
          (some "Gmail send failed."))]) := by
    unfold processEligibleItem
    rw [hsw]
    rfl
  refine ⟨by rw [hsw], ?_, ?_, ?_, ?_⟩
  · rw [hpe]
    cases t.action <;>
      simp [countEsc_append, countEsc_cons, countEsc_nil, countEsc_escCall,
        isEscTermEv]
  · rw [hpe]
    cases t.action <;>
      simp [countSend_append, countSend_cons, countSend_nil, countSend_escCall,
        isSendEv]
  · rw [hpe]
    exact hasProcessed_of_exists_key hmid hten hmark
  · rw [hpe]
    rcases hmark with ⟨row, hrow, hkey⟩
    exact ⟨row, hrow, hkey, (hrows row hrow hkey).1⟩

/-- Witness for C5 at a concrete input (auto-reply branch, send fails). -/
theorem claim_C5_send_failure_escalates_once_witness :
    (runSwitchboard itemEnvSendFail.swb sampleThread itemEnvSendFail.triage).2 =
      Except.ok ⟨SwAction.escalated, some "Gmail send failed."⟩ ∧
    countEsc (processEligibleItem "tenant-1" itemEnvSendFail sampleThread
      "<mid-1>" []).2 = 1 ∧
    countSend (processEligibleItem "tenant-1" itemEnvSendFail sampleThread
      "<mid-1>" []).2 = 1 ∧
    hasProcessed "tenant-1" "<mid-1>"
      (processEligibleItem "tenant-1" itemEnvSendFail sampleThread
        "<mid-1>" []).1 = true ∧
    (∃ row ∈ (processEligibleItem "tenant-1" itemEnvSendFail sampleThread
        "<mid-1>" []).1,
      rowKeyMatch "tenant-1" (normalizeMessageId "<mid-1>") row = true ∧
      row.action = "escalated") :=
  claim_C5_send_failure_escalates_once "tenant-1" itemEnvSendFail sampleThread
    "<mid-1>" [] (sampleTriage TriageAction.auto_reply) "Hi there" sampleLookupOk
    rfl rfl (by decide) rfl (by decide) (by decide) (by decide) (Or.inl rfl)

/-- C6 fails as stated: there is no test-correlation override anywhere in
the heartbeat. A thread whose last message is authored by the support
address is skipped even though its body carries a marker-shaped token
(`[test-correlation: demo-123]`): the tick processes nothing, performs no
side effect and writes no ledger row, where the claim says the item would
be processed with the marker stripped. -/
theorem claim_C6_counterexample :
    runOneHeartbeatTick tickEnvSelfAuthored [] =
      Except.ok (TickResult.no_tick, [], [], 0) := by
  decide

/-- C6 (amended): during a tick, an inbound item whose last message is
authored by the agent's own mailbox address is always skipped — the Ledger,
the trace and the processed counter are untouched — regardless of the
message body; the source has no test-correlation override, no marker
stripping and no correlation capture. -/
theorem claim_C6_self_authored_always_skipped
    (tenantId supportEmail : String) (items : String → ItemEnv)
    (tid : String) (rest : List String) (l : Ledger) (tr : List Ev) (n : Nat)
    (thread : SupportThread) (latest : ThreadMessage)
    (hthread : (items tid).threadResult = Except.ok (some thread))
    (hlast : thread.messages.getLast? = some latest)
    (hmid : jsTrim latest.messageId ≠ "")
    (hfrom : emailFromFromHeader latest.fromHeader ≠ "")
    (hsup : supportEmail ≠ "")
    (heq : emailFromFromHeader latest.fromHeader = supportEmail) :
    tickLoop tenantId supportEmail items (tid :: rest) l tr n =
      tickLoop tenantId supportEmail items rest l tr n := by
  simp only [tickLoop]
  rw [hthread]
  simp only [hlast]
  rw [if_neg (by simp [hmid])]
  rw [if_pos (by simp [heq, hsup, hfrom])]

/-- Witness for the amended C6 at a concrete input. -/
theorem claim_C6_self_authored_always_skipped_witness :
    tickLoop "tenant-1" "support@shop.example" tickEnvSelfAuthored.items
      ["th-1"] [] [] 0 =
    tickLoop "tenant-1" "support@shop.example" tickEnvSelfAuthored.items
      [] [] [] 0 :=
  claim_C6_self_authored_always_skipped "tenant-1" "support@shop.example"
    tickEnvSelfAuthored.items "th-1" [] [] [] 0 selfAuthoredThread
    (selfAuthoredThread.messages.getLast?.getD
      ⟨"", "", "", "", ""⟩)
    rfl rfl (by decide) (by decide) (by decide) (by decide)

theorem tick_if_iff (k : Nat) :
    ((if 0 < k then TickResult.tick_ok else TickResult.no_tick) =
      TickResult.tick_ok) ↔ 0 < k := by
  split <;> simp_all

/-- C8: a completed heartbeat tick answers `tick_ok` iff at least one item
was fully processed (the processed counter is positive); an empty listing
and a profile-resolution failure answer `no_tick` with nothing written. -/
theorem claim_C8_tick_ok_iff_item_processed (env : TickEnv) (l0 : Ledger) :
    (∀ r l tr n, runOneHeartbeatTick env l0 = Except.ok (r, l, tr, n) →
      (r = TickResult.tick_ok ↔ 0 < n)) ∧
    (env.threadIds = [] →
      runOneHeartbeatTick env l0 = Except.ok (TickResult.no_tick, l0, [], 0)) ∧
    (∀ e, env.profileEmail = Except.error e →
      runOneHeartbeatTick env l0 = Except.ok (TickResult.no_tick, l0, [], 0)) := by
  refine ⟨?_, ?_, ?_⟩
  · intro r l tr n h
    unfold runOneHeartbeatTick at h
    by_cases hemp : env.threadIds.isEmpty
    · rw [if_pos hemp] at h
      simp at h
      obtain ⟨hr, -, -, hn⟩ := h
      subst hr
      subst hn
      simp
    · rw [if_neg hemp] at h
      cases hp : env.profileEmail with
      | error e =>
        rw [hp] at h
        simp at h
        obtain ⟨hr, -, -, hn⟩ := h
        subst hr
        subst hn
        simp
      | ok addr =>
        rw [hp] at h
        dsimp only at h
        cases hl : tickLoop env.tenantId (jsLower (jsTrim (addr.getD "")))
            env.items env.threadIds l0 [] 0 with
        | inr e =>
          rw [hl] at h
          simp at h
        | inl trip =>
          obtain ⟨l', tr', n'⟩ := trip
          rw [hl] at h
          simp at h
          obtain ⟨hr, -, -, hn⟩ := h
          subst hr
          subst hn
          exact tick_if_iff _
  · intro hemp
    unfold runOneHeartbeatTick
    rw [if_pos (by simp [hemp])]
  · intro e hp
    unfold runOneHeartbeatTick
    by_cases hemp : env.threadIds.isEmpty
    · rw [if_pos hemp]
    · rw [if_neg hemp, hp]

/-- Witness for C8 at a concrete input (empty listing). -/
theorem claim_C8_tick_ok_iff_item_processed_witness :
    ((TickResult.no_tick = TickResult.tick_ok) ↔ 0 < 0) ∧
    runOneHeartbeatTick tickEnvEmpty [] =
      Except.ok (TickResult.no_tick, [], [], 0) :=
  ⟨(claim_C8_tick_ok_iff_item_processed tickEnvEmpty []).1 TickResult.no_tick
      [] [] 0 (by decide),
   (claim_C8_tick_ok_iff_item_processed tickEnvEmpty []).2.1 rfl⟩
